import Mathlib

/-!
Verification development for the resume-optimizer backend (`src/main.py`).

The file shallowly embeds the core pipeline of the program:

* `json_loads` — a model of Python's `json.loads` on character lists
  (objects, arrays, strings with escapes, numbers kept as lexemes,
  `true`/`false`/`null` and the `NaN`/`Infinity`/`-Infinity` constants);
* `extract_json_from_text`, `braceSpan` — the two-tier reply parsing
  (`main.py` lines 103-124), where the regex `\x7b.*\x7d` with `DOTALL`
  matches from the first opening brace to the last closing brace;
* `resolve_reply` — the key lookup in `optimize_resume`
  (`main.py` lines 201-208), including Python's runtime behaviour of
  `"optimized_text" in parsed` and `parsed["optimized_text"]` on each
  possible parsed value (a `TypeError` is modelled as `Except.error`);
* `call_ai_with_retry` — the retry loop (`main.py` lines 131-175) over an
  oracle `svc` standing for the external completion service, recording the
  number of attempts and the list of sleep durations;
* `extract_text`, `structured_text`, `drawLine`/`renderPages`/`create_pdf`,
  and the two HTTP handlers `optimize_handler` / `optimize_structured_handler`
  (`main.py` lines 74-96, 215-246, 253-343).

Stateful and IO-bound aspects (the PDF library, the network, `time.sleep`,
the filesystem) are modelled by explicit data: a page is the list of
`drawString` calls it received, the completion service is a function from
attempt index to an abstract attempt result, and the random file name is a
parameter.  Error strings carry the message observable at the orchestrator
boundary (`str(e)` of the propagated exception).
-/

namespace ResumeBackend

/-- Python values as produced by `json.loads`.  Numbers keep their source
lexeme (the program never does arithmetic on them, it only tests truthiness
and membership); `null` doubles as Python `None`. -/
inductive Json where
  | null : Json
  | bool : Bool → Json
  | num : String → Json
  | str : String → Json
  | arr : List Json → Json
  | obj : List (String × Json) → Json

/-- JSON whitespace accepted between tokens by Python's json module. -/
def isJsonWs (c : Char) : Bool :=
  c = ' ' || c = '\t' || c = '\n' || c = '\r'

/-- Drop leading JSON whitespace. -/
def skipWs : List Char → List Char
  | [] => []
  | c :: cs => if isJsonWs c then skipWs cs else c :: cs

/-- Value of one hexadecimal digit. -/
def hexVal (c : Char) : Option Nat :=
  if '0' ≤ c ∧ c ≤ '9' then some (c.toNat - '0'.toNat)
  else if 'a' ≤ c ∧ c ≤ 'f' then some (c.toNat - 'a'.toNat + 10)
  else if 'A' ≤ c ∧ c ≤ 'F' then some (c.toNat - 'A'.toNat + 10)
  else none

/-- Four hexadecimal digits, as used by the `\uXXXX` string escape. -/
def hex4 : List Char → Option (Nat × List Char)
  | a :: b :: c :: d :: rest =>
    match hexVal a, hexVal b, hexVal c, hexVal d with
    | some x, some y, some z, some w => some (((x * 16 + y) * 16 + z) * 16 + w, rest)
    | _, _, _, _ => none
  | _ => none

/-- Single-character JSON string escapes. -/
def escChar (c : Char) : Option Char :=
  if c = '\"' then some '\"'
  else if c = '\\' then some '\\'
  else if c = '/' then some '/'
  else if c = 'b' then some (Char.ofNat 8)
  else if c = 'f' then some (Char.ofNat 12)
  else if c = 'n' then some '\n'
  else if c = 'r' then some '\r'
  else if c = 't' then some '\t'
  else none

/-- Body of a JSON string, after the opening quote: strict mode of Python's
json module (raw control characters below 0x20 are rejected), escapes are
decoded, and `\uXXXX` surrogate pairs are combined.  A lone surrogate,
which Python would keep as an unpaired code unit, has no `Char`
counterpart and is clamped by `Char.ofNat`; no statement below depends on
that corner.  Fuel decreases at every step, and each step consumes at
least one character, so `length + 1` fuel never runs out. -/
def parseStringBody : Nat → List Char → List Char → Option (String × List Char)
  | 0, _, _ => none
  | fuel + 1, acc, cs =>
    match cs with
    | [] => none
    | c :: rest =>
      if c = '\"' then some (⟨acc.reverse⟩, rest)
      else if c = '\\' then
        match rest with
        | [] => none
        | e :: rest2 =>
          if e = 'u' then
            match hex4 rest2 with
            | none => none
            | some (n, rest3) =>
              if 0xD800 ≤ n ∧ n ≤ 0xDBFF then
                match rest3 with
                | '\\' :: 'u' :: tail =>
                  match hex4 tail with
                  | some (m, rest4) =>
                    if 0xDC00 ≤ m ∧ m ≤ 0xDFFF then
                      parseStringBody fuel
                        (Char.ofNat (0x10000 + (n - 0xD800) * 0x400 + (m - 0xDC00)) :: acc) rest4
                    else parseStringBody fuel (Char.ofNat n :: acc) rest3
                  | none => parseStringBody fuel (Char.ofNat n :: acc) rest3
                | _ => parseStringBody fuel (Char.ofNat n :: acc) rest3
              else parseStringBody fuel (Char.ofNat n :: acc) rest3
          else
            match escChar e with
            | some d => parseStringBody fuel (d :: acc) rest2
            | none => none
      else if c.toNat < 0x20 then none
      else parseStringBody fuel (c :: acc) rest

/-- Longest run of decimal digits at the front. -/
def digitSpan (cs : List Char) : List Char × List Char :=
  (cs.takeWhile Char.isDigit, cs.dropWhile Char.isDigit)

/-- Integer part of the JSON number grammar: `0`, or a nonzero digit
followed by digits. -/
def parseIntPart : List Char → Option (List Char × List Char)
  | '0' :: rest => some (['0'], rest)
  | c :: rest =>
    if '1' ≤ c ∧ c ≤ '9' then
      let s := digitSpan rest
      some (c :: s.1, s.2)
    else none
  | [] => none

/-- Optional fraction part `. digits` of the JSON number grammar. -/
def parseFracPart (cs : List Char) : List Char × List Char :=
  match cs with
  | '.' :: rest =>
    let s := digitSpan rest
    if s.1.isEmpty then ([], cs) else ('.' :: s.1, s.2)
  | _ => ([], cs)

/-- Optional exponent part `e/E sign? digits` of the JSON number grammar. -/
def parseExpPart (cs : List Char) : List Char × List Char :=
  match cs with
  | e :: rest =>
    if e = 'e' ∨ e = 'E' then
      match rest with
      | s :: rest2 =>
        if s = '+' ∨ s = '-' then
          let d := digitSpan rest2
          if d.1.isEmpty then ([], cs) else (e :: s :: d.1, d.2)
        else
          let d := digitSpan rest
          if d.1.isEmpty then ([], cs) else (e :: d.1, d.2)
      | [] => ([], cs)
    else ([], cs)
  | [] => ([], cs)

/-- The number regex of Python's json scanner,
`(-?(0|[1-9] digits))(. digits)? ([eE][+-]? digits)?`, returning the
matched lexeme. -/
def parseNumberLex (cs : List Char) : Option (String × List Char) :=
  match cs with
  | '-' :: rest =>
    match parseIntPart rest with
    | none => none
    | some (ip, rest2) =>
      let f := parseFracPart rest2
      let e := parseExpPart f.2
      some (⟨'-' :: (ip ++ f.1 ++ e.1)⟩, e.2)
  | _ =>
    match parseIntPart cs with
    | none => none
    | some (ip, rest2) =>
      let f := parseFracPart rest2
      let e := parseExpPart f.2
      some (⟨ip ++ f.1 ++ e.1⟩, e.2)

mutual

/-- One JSON value at the front of the input (no leading whitespace),
following Python's scanner: string, object, array, the three literals, the
three float constants, or a number. -/
def parseValue : Nat → List Char → Option (Json × List Char)
  | 0, _ => none
  | fuel + 1, cs =>
    match cs with
    | [] => none
    | '\"' :: rest =>
      match parseStringBody (rest.length + 1) [] rest with
      | some (s, rest2) => some (.str s, rest2)
      | none => none
    | '{' :: rest =>
      match skipWs rest with
      | '}' :: rest2 => some (.obj [], rest2)
      | rest1 => parseMembers fuel [] rest1
    | '[' :: rest =>
      match skipWs rest with
      | ']' :: rest2 => some (.arr [], rest2)
      | rest1 => parseElems fuel [] rest1
    | 't' :: 'r' :: 'u' :: 'e' :: rest => some (.bool true, rest)
    | 'f' :: 'a' :: 'l' :: 's' :: 'e' :: rest => some (.bool false, rest)
    | 'n' :: 'u' :: 'l' :: 'l' :: rest => some (.null, rest)
    | 'N' :: 'a' :: 'N' :: rest => some (.num "NaN", rest)
    | 'I' :: 'n' :: 'f' :: 'i' :: 'n' :: 'i' :: 't' :: 'y' :: rest => some (.num "Infinity", rest)
    | _ =>
      match parseNumberLex cs with
      | some (lex, rest) => some (.num lex, rest)
      | none =>
        match cs with
        | '-' :: 'I' :: 'n' :: 'f' :: 'i' :: 'n' :: 'i' :: 't' :: 'y' :: rest =>
          some (.num "-Infinity", rest)
        | _ => none

/-- Members of an object after `{` (or after a comma): a quoted key, a
colon, a value, then a comma or the closing brace.  Duplicate keys are all
recorded; lookups take the last one, as a Python dict would. -/
def parseMembers : Nat → List (String × Json) → List Char → Option (Json × List Char)
  | 0, _, _ => none
  | fuel + 1, acc, cs =>
    match cs with
    | '\"' :: rest =>
      match parseStringBody (rest.length + 1) [] rest with
      | none => none
      | some (key, rest2) =>
        match skipWs rest2 with
        | ':' :: rest3 =>
          match parseValue fuel (skipWs rest3) with
          | none => none
          | some (v, rest4) =>
            match skipWs rest4 with
            | ',' :: rest5 => parseMembers fuel (acc ++ [(key, v)]) (skipWs rest5)
            | '}' :: rest5 => some (.obj (acc ++ [(key, v)]), rest5)
            | _ => none
        | _ => none
    | _ => none

/-- Elements of an array after `[` (or after a comma). -/
def parseElems : Nat → List Json → List Char → Option (Json × List Char)
  | 0, _, _ => none
  | fuel + 1, acc, cs =>
    match parseValue fuel cs with
    | none => none
    | some (v, rest) =>
      match skipWs rest with
      | ',' :: rest2 => parseElems fuel (acc ++ [v]) (skipWs rest2)
      | ']' :: rest2 => some (.arr (acc ++ [v]), rest2)
      | _ => none

end

/-- Model of Python's `json.loads`: skip leading whitespace, parse one
value, require only whitespace to remain.  `none` is a raised
`JSONDecodeError`.  Every recursive step of the three parse functions
consumes at least one character, so `2 * length + 8` fuel never runs out
and `none` means the input is malformed, exactly as in Python. -/
def json_loads (s : String) : Option Json :=
  match parseValue (2 * s.data.length + 8) (skipWs s.data) with
  | some (v, rest) => if (skipWs rest).isEmpty then some v else none
  | none => none

/-- The greedy regex search of `main.py` line 115:
`re.search` of the pattern `\x7b.*\x7d` with `DOTALL` succeeds exactly when
the first `\x7b` precedes the last `\x7d`, and then matches the span from
that first opening brace to that last closing brace inclusive. -/
def braceSpan (text : String) : Option String :=
  let cs := text.data
  match cs.findIdx? (fun c => c = '{'), cs.reverse.findIdx? (fun c => c = '}') with
  | some i, some r =>
    let j := cs.length - 1 - r
    if i < j then some ⟨(cs.drop i).take (j - i + 1)⟩ else none
  | _, _ => none

/-- Model of `extract_json_from_text` (`main.py` lines 103-124): direct
parse first, then the brace-delimited span.  The Python function returns
whatever `json.loads` produced, dict or not, despite its `Optional[dict]`
annotation; a parse of the literal `null` is returned here as
`some Json.null` where Python hands back `None` — the caller treats both
as falsy, so the observable behaviour agrees. -/
def extract_json_from_text (text : String) : Option Json :=
  match json_loads text with
  | some v => some v
  | none =>
    match braceSpan text with
    | some sub => json_loads sub
    | none => none

/-- Whether all digits of the mantissa (before any exponent marker) are
zero; Python's `float` truthiness on the parsed number, up to denormal
underflow which no statement below exercises. -/
def mantissaAllZero (lex : String) : Bool :=
  (lex.data.takeWhile (fun c => !(c == 'e' || c == 'E'))).all
    (fun c => !c.isDigit || c == '0')

/-- Python truthiness of a parsed value, as used by `if parsed` on
`main.py` line 203. -/
def Json.truthy : Json → Bool
  | .null => false
  | .bool b => b
  | .num lex =>
    if lex = "NaN" || lex = "Infinity" || lex = "-Infinity" then true
    else !mantissaAllZero lex
  | .str s => !s.isEmpty
  | .arr xs => !xs.isEmpty
  | .obj kvs => !kvs.isEmpty

/-- Python type name of a parsed value, for the `TypeError` messages. -/
def pyTypeName : Json → String
  | .null => "NoneType"
  | .bool _ => "bool"
  | .num lex =>
    if lex = "NaN" || lex = "Infinity" || lex = "-Infinity"
        || lex.data.any (fun c => c == '.' || c == 'e' || c == 'E') then "float"
    else "int"
  | .str _ => "str"
  | .arr _ => "list"
  | .obj _ => "dict"

/-- Substring test, Python's `needle in hay` on strings. -/
def isSubstring (needle hay : String) : Bool :=
  (List.range (hay.data.length + 1)).any
    (fun i => (hay.data.drop i).take needle.data.length == needle.data)

/-- Python's `key in parsed` (`main.py` line 203): key membership on a
dict, element equality on a list, substring test on a str, and a
`TypeError` on the non-iterable types. -/
def membershipTest (key : String) : Json → Except String Bool
  | .obj kvs => .ok (kvs.any (fun kv => kv.1 == key))
  | .arr xs => .ok (xs.any (fun x => match x with | .str s => s == key | _ => false))
  | .str s => .ok (isSubstring key s)
  | j => .error ("argument of type '" ++ pyTypeName j ++ "' is not iterable")

/-- Python's `parsed[key]` (`main.py` line 205): dict lookup (last
duplicate wins), `TypeError` on str and list subscripts with a string
index, `KeyError` text when the key is missing. -/
def subscript (key : String) : Json → Except String Json
  | .obj kvs =>
    match (kvs.filter (fun kv => kv.1 == key)).getLast? with
    | some kv => .ok kv.2
    | none => .error ("'" ++ key ++ "'")
  | .str _ => .error "string indices must be integers"
  | .arr _ => .error "list indices must be integers or slices, not str"
  | j => .error ("'" ++ pyTypeName j ++ "' object is not subscriptable")

/-- Resolution step of `optimize_resume` (`main.py` lines 201-208): parse
the reply, and when the parsed value is truthy and passes the membership
test, return the subscripted value; otherwise fall back to the raw reply.
An `Except.error` is an exception escaping `optimize_resume` (Python's
short-circuiting `and` evaluates the membership test only on truthy
values). -/
def resolve_reply (result : String) : Except String Json :=
  match extract_json_from_text result with
  | none => .ok (.str result)
  | some parsed =>
    if parsed.truthy then
      match membershipTest "optimized_text" parsed with
      | .error m => .error m
      | .ok true => subscript "optimized_text" parsed
      | .ok false => .ok (.str result)
    else .ok (.str result)

/-- Outcome of one call to the external completion service, abstracting
`client.chat.completions.create` on `main.py` lines 139-156: the call can
raise (network error, timeout), return a falsy response object, or return
a message whose content is the given string (Python's falsy `None` content
is modelled as the empty string — both take the `Empty content` branch). -/
inductive AttemptResult where
  | exn : String → AttemptResult
  | emptyResponse : AttemptResult
  | content : String → AttemptResult

/-- Body of one iteration of the retry loop (`main.py` lines 137-166): the
two emptiness checks raise, a non-empty content is returned. -/
def attemptOutcome : AttemptResult → Except String String
  | .exn m => .error m
  | .emptyResponse => .error "Empty response object"
  | .content s => if s.isEmpty then .error "Empty content" else .ok s

/-- What a full run of `call_ai_with_retry` did: its return value or
raised exception, how many service calls it made, and the duration of
each `time.sleep` it executed, in order. -/
structure RetryRun where
  outcome : Except String String
  attempts : Nat
  sleeps : List Nat

/-- Configuration constant of `main.py` line 19. -/
def MAX_RETRIES : Nat := 3

/-- Configuration constant of `main.py` line 20. -/
def RETRY_DELAY : Nat := 2

/-- The `for attempt in range(MAX_RETRIES)` loop (`main.py` lines
135-175): on failure, sleep `RETRY_DELAY` and continue when attempts
remain, else re-raise with the last error.  The base case models the
implicit `return None` after the loop, reachable only if `MAX_RETRIES`
were zero. -/
def runAttempts (svc : Nat → AttemptResult) : List Nat → Nat → List Nat → RetryRun
  | [], attempts, sleeps => ⟨.error "AI returned no result", attempts, sleeps⟩
  | i :: rest, attempts, sleeps =>
    match attemptOutcome (svc i) with
    | .ok c => ⟨.ok c, attempts + 1, sleeps⟩
    | .error e =>
      if rest.isEmpty then ⟨.error ("AI failed after retries: " ++ e), attempts + 1, sleeps⟩
      else runAttempts svc rest (attempts + 1) (sleeps ++ [RETRY_DELAY])

/-- Model of `call_ai_with_retry` (`main.py` lines 131-175).  The external
service is the oracle `svc`, a function from the prompt and the attempt
index to that attempt's outcome; each attempt is independent, matching the
spec's statement that no state is carried between attempts. -/
def call_ai_with_retry (prompt : String) (svc : String → Nat → AttemptResult) : RetryRun :=
  runAttempts (svc prompt) (List.range MAX_RETRIES) 0 []

/-- The prompt f-string of `optimize_resume` (`main.py` lines 184-197). -/
def resume_prompt (text : String) : String :=
  "\nYou are an expert ATS resume optimizer.\n\nImprove this resume professionally.\n\nReturn JSON format only:\n\n\x7b\n  \"optimized_text\": \"full optimized resume text\"\n\x7d\n\nResume:\n"
    ++ text ++ "\n"

/-- Model of `optimize_resume` (`main.py` lines 182-208): build the
prompt, call the service with retries, then resolve the reply.  An
`Except.error` is an exception propagating out of the function. -/
def optimize_resume (text : String) (svc : String → Nat → AttemptResult) :
    Except String Json :=
  match (call_ai_with_retry (resume_prompt text) svc).outcome with
  | .error e => .error e
  | .ok result => resolve_reply result

/-- Whitespace for Python's `str.strip()`, restricted to the ASCII range
(the unicode whitespace classes never arise in the statements below). -/
def pythonIsSpace (c : Char) : Bool :=
  c = ' ' || c = '\t' || c = '\n' || c = '\r' || c = Char.ofNat 11 || c = Char.ofNat 12

/-- The page-concatenation loop of `extract_text` (`main.py` lines
78-87): a page whose `extract_text()` is `None` or empty is skipped, any
other page text is appended with a trailing newline. -/
def concatPages (pages : List (Option String)) : String :=
  pages.foldl
    (fun acc p =>
      match p with
      | some t => if t.isEmpty then acc else acc ++ t ++ "\n"
      | none => acc) ""

/-- Model of `extract_text` (`main.py` lines 74-96) on an already-opened
document, given as the list of per-page `extract_text()` results.  When
the concatenated text strips to empty, the function raises
`HTTPException(400, ...)`, which its own `except` clause immediately
rewraps into `HTTPException(500, "PDF extraction failed: ...")`; the
error string recorded here is the `str(e)` of that final exception as the
orchestrator observes it. -/
def extract_text (pages : List (Option String)) : Except String String :=
  let text := concatPages pages
  if text.data.all pythonIsSpace then
    .error ("500: " ++ ("PDF extraction failed: " ++ ("400: " ++ "No readable text in PDF")))
  else .ok text

/-- One rendered page: the `drawString` calls it received, each with its
vertical coordinate and the drawn text (the horizontal coordinate is the
constant 50 and is omitted). -/
abbrev Page := List (Nat × String)

/-- Canvas state while `create_pdf` runs: the vertical cursor, the draws
on the page in progress, and the pages already emitted by `showPage`. -/
structure RenderState where
  y : Nat
  current : Page
  pages : List Page

/-- One iteration of the rendering loop (`main.py` lines 227-238):
truncate the line to 100 characters (`line[:100]` slices code points),
draw it at the cursor, descend 20 units, and start a fresh page with the
cursor back at 800 when the cursor falls below 50. -/
def drawLine (st : RenderState) (line : String) : RenderState :=
  let safe : String := ⟨line.data.take 100⟩
  let cur := st.current ++ [(st.y, safe)]
  let y2 := st.y - 20
  if y2 < 50 then ⟨800, [], st.pages ++ [cur]⟩ else ⟨y2, cur, st.pages⟩

/-- Split a character list at every newline, keeping empty pieces: the
semantics of Python's `split` with an explicit separator (the empty text
yields one empty piece). -/
def splitLines : List Char → List (List Char)
  | [] => [[]]
  | c :: rest =>
    if c = '\n' then [] :: splitLines rest
    else
      match splitLines rest with
      | h :: t => (c :: h) :: t
      | [] => [[c]]

/-- Python's `content.split("\n")` on `main.py` line 227. -/
def pySplitNewline (s : String) : List String :=
  (splitLines s.data).map (fun l => ⟨l⟩)

/-- Canvas state after the whole rendering loop of `create_pdf`:
`content.split("\n")` folded through `drawLine` from the initial cursor
800 with no draws and no emitted pages. -/
def renderFold (content : String) : RenderState :=
  (pySplitNewline content).foldl drawLine ⟨800, [], []⟩

/-- The pages of the document produced by `create_pdf` for the given
content: the pages emitted by `showPage` during the loop, then, as
`canvas.save()` does, the page in progress exactly when something was
drawn on it since the last page break. -/
def renderPages (content : String) : List Page :=
  (renderFold content).pages
    ++ (if (renderFold content).current.isEmpty then [] else [(renderFold content).current])

/-- All `drawString` calls a canvas state has recorded: those on emitted
pages, then those on the page in progress. -/
def draws (st : RenderState) : Page :=
  st.pages.flatten ++ st.current

/-- Model of `create_pdf` (`main.py` lines 215-246).  The random
`uuid`-based filename is a parameter.  When the resolved content is not a
string — possible, since `optimize_resume` returns whatever the parsed
reply held under the key — `content.split("\n")` raises an
`AttributeError`, which the function's `except` clause wraps into
`HTTPException(500, "PDF creation failed: ...")`; the recorded error
string is again the orchestrator-visible `str(e)`. -/
def create_pdf (content : Json) (filename : String) :
    Except String (String × List Page) :=
  match content with
  | .str s => .ok (filename, renderPages s)
  | j =>
    .error ("500: " ++ ("PDF creation failed: "
      ++ ("'" ++ pyTypeName j ++ "' object has no attribute 'split'")))

/-- The f-string of `optimize_structured` (`main.py` lines 303-319) that
flattens the form fields into one text block. -/
def structured_text (name email phone skills projects
    experience education : String) : String :=
  "\nName: " ++ name ++ "\nEmail: " ++ email ++ "\nPhone: " ++ phone
    ++ "\n\nSkills:\n" ++ skills ++ "\n\nProjects:\n" ++ projects
    ++ "\n\nExperience:\n" ++ experience ++ "\n\nEducation:\n" ++ education ++ "\n"

/-- The JSON body and status code the handlers send back. -/
structure ApiResponse where
  success : Bool
  optimized_text : Option Json
  download_url : Option String
  error : Option String
  status : Nat

/-- The failure shape of the handlers' `except` clauses (`main.py` lines
274-282 and 335-343): success flag false, the exception's message, HTTP
status 500. -/
def mkFailure (m : String) : ApiResponse :=
  ⟨false, none, none, some m, 500⟩

/-- The success shape of the handlers (`main.py` lines 264-272 and
325-333). -/
def mkSuccess (t : Json) (u : String) : ApiResponse :=
  ⟨true, some t, some u, none, 200⟩

/-- The stages shared by both handlers after a text block exists:
optimize, render, and build the response; any exception is converted to
the failure shape by the surrounding `try`/`except`. -/
def pipeline_tail (text : String) (svc : String → Nat → AttemptResult)
    (fname : String) : ApiResponse :=
  match optimize_resume text svc with
  | .error e => mkFailure e
  | .ok optimized =>
    match create_pdf optimized fname with
    | .error e => mkFailure e
    | .ok (filename, _pages) => mkSuccess optimized ("/download/" ++ filename)

/-- Model of the `/optimize` handler (`main.py` lines 253-282): extract,
then run the shared tail; any exception from any stage becomes the
failure shape. -/
def optimize_handler (pages : List (Option String))
    (svc : String → Nat → AttemptResult) (fname : String) : ApiResponse :=
  match extract_text pages with
  | .error e => mkFailure e
  | .ok text => pipeline_tail text svc fname

/-- Model of the `/optimize/structured` handler (`main.py` lines
289-343): flatten the form fields (which cannot fail), then run the
shared tail. -/
def optimize_structured_handler (name email phone skills projects
    experience education : String) (svc : String → Nat → AttemptResult)
    (fname : String) : ApiResponse :=
  pipeline_tail (structured_text name email phone skills projects experience education)
    svc fname

/-- The stages downstream of text extraction all succeeded: the retried
completion call returned a reply, the reply resolved without an
exception, and the rendering accepted the resolved content. -/
def tailOk (text : String) (svc : String → Nat → AttemptResult) (fname : String) : Prop :=
  ∃ reply optimized result,
    (call_ai_with_retry (resume_prompt text) svc).outcome = .ok reply
    ∧ resolve_reply reply = .ok optimized
    ∧ create_pdf optimized fname = .ok result

/-- Every stage of the `/optimize` pipeline succeeded, extraction
included. -/
def stagesOk (pages : List (Option String)) (svc : String → Nat → AttemptResult)
    (fname : String) : Prop :=
  ∃ text, extract_text pages = .ok text ∧ tailOk text svc fname

/-- The given fragments occur in the string, in order and without
overlap. -/
def containsInOrder : String → List String → Prop
  | _, [] => True
  | s, h :: t => ∃ pre post, s = pre ++ h ++ post ∧ containsInOrder post t

/-- C1: the claim says the resolver never fails and otherwise returns the
raw reply unchanged.  The code violates this: for the reply `5`,
`json.loads` succeeds with the integer `5`, which is truthy, and
`"optimized_text" in 5` raises a `TypeError` that propagates out of
`optimize_resume`; the orchestrator then surfaces a failure result instead
of the raw reply.  This theorem evaluates the embedded code at that
failing input, and also records that the fallback does work on brace-free
prose, as the documented intent (`GUARANTEED JSON PARSER`, `fallback if AI
fails format`) describes. -/
theorem resolver_raises_on_bare_number :
    resolve_reply "5" = .error "argument of type 'int' is not iterable"
    ∧ optimize_handler [some "John Doe resume"] (fun _ _ => .content "5") "f.pdf"
        = mkFailure "argument of type 'int' is not iterable"
    ∧ resolve_reply "plain free text with no braces" = .ok (.str "plain free text with no braces") :=
  ⟨rfl, rfl, rfl⟩

/-- C4: recovery path of the Response Resolver.  When the whole reply does
not parse, but the span from the first opening brace to the last closing
brace parses to a truthy value that passes the membership test, the
resolver returns that value under the payload key. -/
theorem resolver_recovery_path (reply sub v : String) (j : Json)
    (h1 : json_loads reply = none) (h2 : braceSpan reply = some sub)
    (h3 : json_loads sub = some j) (h4 : j.truthy = true)
    (h5 : membershipTest "optimized_text" j = .ok true)
    (h6 : subscript "optimized_text" j = .ok (.str v)) :
    resolve_reply reply = .ok (.str v) := by
  simp [resolve_reply, extract_json_from_text, h1, h2, h3, h4, h5, h6]

/-- Witness for C4 at the concrete reply of the claim: prose around an
embedded object resolves to the object's payload value. -/
theorem resolver_recovery_path_witness :
    resolve_reply "Here you go: \x7b\"optimized_text\": \"John Doe\\nSkills: Go\"\x7d thanks"
      = .ok (.str "John Doe\nSkills: Go") :=
  resolver_recovery_path _ "\x7b\"optimized_text\": \"John Doe\\nSkills: Go\"\x7d"
    "John Doe\nSkills: Go" (.obj [("optimized_text", .str "John Doe\nSkills: Go")])
    rfl rfl rfl rfl rfl rfl

/-- C6 (counterexample): resolution is not idempotent as claimed.  The
reply below is valid structured data containing the payload key, so the
resolver returns that key's value — but the value is itself a structured
payload, and resolving it again yields the strictly different text
`inner`. -/
theorem resolver_idempotence_cx :
    json_loads "\x7b\"optimized_text\": \"\x7b\\\"optimized_text\\\": \\\"inner\\\"\x7d\"\x7d"
      = some (.obj [("optimized_text", .str "\x7b\"optimized_text\": \"inner\"\x7d")])
    ∧ resolve_reply "\x7b\"optimized_text\": \"\x7b\\\"optimized_text\\\": \\\"inner\\\"\x7d\"\x7d"
      = .ok (.str "\x7b\"optimized_text\": \"inner\"\x7d")
    ∧ resolve_reply "\x7b\"optimized_text\": \"inner\"\x7d" = .ok (.str "inner")
    ∧ ("inner" : String) ≠ "\x7b\"optimized_text\": \"inner\"\x7d" :=
  ⟨rfl, rfl, rfl, by decide⟩

/-- C6 (amended): for a reply that parses to a truthy value passing the
membership test, the resolver returns exactly the payload key's value;
and resolving that value again returns it unchanged provided the value
is not itself parseable structured data (directly or via its brace
span). -/
theorem resolver_fastpath_value (reply v : String) (j : Json)
    (h1 : json_loads reply = some j) (h2 : j.truthy = true)
    (h3 : membershipTest "optimized_text" j = .ok true)
    (h4 : subscript "optimized_text" j = .ok (.str v)) :
    resolve_reply reply = .ok (.str v)
    ∧ (extract_json_from_text v = none → resolve_reply v = .ok (.str v)) := by
  constructor
  · simp [resolve_reply, extract_json_from_text, h1, h2, h3, h4]
  · intro h
    simp [resolve_reply, h]

/-- Witness for the amended C6: a well-formed reply resolves to its
payload value, and resolving that plain value again leaves it unchanged. -/
theorem resolver_fastpath_value_witness :
    resolve_reply "\x7b\"optimized_text\": \"plain\"\x7d" = .ok (.str "plain")
    ∧ resolve_reply "plain" = .ok (.str "plain") :=
  have h := resolver_fastpath_value "\x7b\"optimized_text\": \"plain\"\x7d" "plain"
    (.obj [("optimized_text", .str "plain")]) rfl rfl rfl rfl
  ⟨h.1, h.2 rfl⟩

/-- C5: when the concatenated extracted text is empty or whitespace-only,
the pipeline fails with a non-empty message, and the result does not
depend on the completion service or the output filename — the model is
never consulted. -/
theorem empty_extraction_short_circuits (pages : List (Option String))
    (h : (concatPages pages).data.all pythonIsSpace = true) :
    ("500: " ++ ("PDF extraction failed: " ++ ("400: " ++ "No readable text in PDF"))) ≠ ""
    ∧ ∀ svc fname, optimize_handler pages svc fname
        = mkFailure ("500: " ++ ("PDF extraction failed: " ++ ("400: " ++ "No readable text in PDF"))) := by
  refine ⟨by decide, fun svc fname => ?_⟩
  simp [optimize_handler, extract_text, h]

/-- Witness for C5: a document whose only page text is a blank fails
identically under two different service oracles. -/
theorem empty_extraction_short_circuits_witness :
    optimize_handler [some " ", none] (fun _ _ => .content "stub reply") "f.pdf"
      = mkFailure ("500: " ++ ("PDF extraction failed: " ++ ("400: " ++ "No readable text in PDF")))
    ∧ optimize_handler [some " ", none] (fun _ _ => .exn "network down") "g.pdf"
      = mkFailure ("500: " ++ ("PDF extraction failed: " ++ ("400: " ++ "No readable text in PDF"))) :=
  ⟨(empty_extraction_short_circuits [some " ", none] (by decide)).2 _ _,
   (empty_extraction_short_circuits [some " ", none] (by decide)).2 _ _⟩

/-- C2: the retry policy.  `MAX_RETRIES` is 3; a service failing on the
first two attempts and succeeding on the third yields that reply after
exactly three attempts and two constant-length sleeps; a service failing
on all three attempts yields the wrapped last error after exactly three
attempts; and the run depends only on the first `MAX_RETRIES` attempt
outcomes, so no attempt is made after the third. -/
theorem retry_policy_bounds :
    MAX_RETRIES = 3
    ∧ (∀ prompt svc e0 e1 c, attemptOutcome (svc prompt 0) = .error e0 →
        attemptOutcome (svc prompt 1) = .error e1 →
        attemptOutcome (svc prompt 2) = .ok c →
        call_ai_with_retry prompt svc = ⟨.ok c, 3, [RETRY_DELAY, RETRY_DELAY]⟩)
    ∧ (∀ prompt svc e0 e1 e2, attemptOutcome (svc prompt 0) = .error e0 →
        attemptOutcome (svc prompt 1) = .error e1 →
        attemptOutcome (svc prompt 2) = .error e2 →
        call_ai_with_retry prompt svc
          = ⟨.error ("AI failed after retries: " ++ e2), 3, [RETRY_DELAY, RETRY_DELAY]⟩)
    ∧ (∀ prompt svc svc2, (∀ i, i < MAX_RETRIES → svc prompt i = svc2 prompt i) →
        call_ai_with_retry prompt svc = call_ai_with_retry prompt svc2) := by
  have hr : List.range MAX_RETRIES = [0, 1, 2] := rfl
  refine ⟨rfl, ?_, ?_, ?_⟩
  · intro prompt svc e0 e1 c h0 h1 h2
    simp [call_ai_with_retry, hr, runAttempts, h0, h1, h2]
  · intro prompt svc e0 e1 e2 h0 h1 h2
    simp [call_ai_with_retry, hr, runAttempts, h0, h1, h2]
  · intro prompt svc svc2 h
    have h0 := h 0 (by decide)
    have h1 := h 1 (by decide)
    have h2 := h 2 (by decide)
    simp [call_ai_with_retry, hr, runAttempts, h0, h1, h2]

/-- Witness for C2: a concrete service that fails twice then succeeds,
and a concrete service that always fails. -/
theorem retry_policy_bounds_witness :
    call_ai_with_retry "p" (fun _ i => if i < 2 then .exn "boom" else .content "hello")
      = ⟨.ok "hello", 3, [RETRY_DELAY, RETRY_DELAY]⟩
    ∧ call_ai_with_retry "p" (fun _ _ => .emptyResponse)
      = ⟨.error ("AI failed after retries: " ++ "Empty response object"), 3,
          [RETRY_DELAY, RETRY_DELAY]⟩ :=
  ⟨retry_policy_bounds.2.1 "p" _ "boom" "boom" "hello" rfl rfl rfl,
   retry_policy_bounds.2.2.1 "p" _ "Empty response object" "Empty response object"
     "Empty response object" rfl rfl rfl⟩

/-- Unfolding of `drawLine` with the if at the top. -/
theorem drawLine_eq (st : RenderState) (line : String) :
    drawLine st line =
      if st.y - 20 < 50 then
        ⟨800, [], st.pages ++ [st.current ++ [(st.y, ⟨line.data.take 100⟩)]]⟩
      else
        ⟨st.y - 20, st.current ++ [(st.y, ⟨line.data.take 100⟩)], st.pages⟩ := rfl

/-- One step of the rendering loop preserves the cursor/page-count
invariant: after `k` lines, the cursor sits at `800 - 20 * (k % 38)`, the
page in progress holds `k % 38` draws, `k / 38` full pages of exactly 38
draws each have been emitted, and the new draw lands at the old cursor
position. -/
theorem drawLine_spec (st : RenderState) (k : Nat) (line : String)
    (hy : st.y = 800 - 20 * (k % 38)) (hcl : st.current.length = k % 38)
    (hpl : st.pages.length = k / 38)
    (hpb : ∀ pg ∈ st.pages, pg.length = 38) :
    (drawLine st line).y = 800 - 20 * ((k + 1) % 38)
    ∧ (drawLine st line).current.length = (k + 1) % 38
    ∧ (drawLine st line).pages.length = (k + 1) / 38
    ∧ (∀ pg ∈ (drawLine st line).pages, pg.length = 38)
    ∧ draws (drawLine st line) = draws st ++ [(st.y, (⟨line.data.take 100⟩ : String))] := by
  have hmod : k % 38 < 38 := Nat.mod_lt _ (by omega)
  rw [drawLine_eq]
  by_cases h37 : k % 38 = 37
  · have hif : st.y - 20 < 50 := by omega
    rw [if_pos hif]
    refine ⟨by simp; omega, by simp; omega, ?_, ?_, ?_⟩
    · simp [List.length_append, hpl]
      omega
    · intro pg hpg
      rcases List.mem_append.1 hpg with h | h
      · exact hpb pg h
      · rcases List.mem_singleton.1 h with rfl
        simp [List.length_append, hcl]
        omega
    · simp [draws, List.flatten_append, List.append_assoc]
  · have hif : ¬ (st.y - 20 < 50) := by omega
    rw [if_neg hif]
    refine ⟨by simp; omega, ?_, by simp; omega, hpb, ?_⟩
    · simp [List.length_append, hcl]
      omega
    · simp [draws, List.append_assoc]

/-- The rendering loop invariant, for a whole list of lines: the final
cursor, draw counts and page counts are determined by the number of lines
already processed, and the loop appends exactly one draw per line, each
placed at a cursor position between 60 and 800 and carrying the line
truncated to 100 characters. -/
theorem foldl_drawLine_spec (lines : List String) : ∀ (st : RenderState) (k : Nat),
    st.y = 800 - 20 * (k % 38) → st.current.length = k % 38 →
    st.pages.length = k / 38 → (∀ pg ∈ st.pages, pg.length = 38) →
    (lines.foldl drawLine st).y = 800 - 20 * ((k + lines.length) % 38)
    ∧ (lines.foldl drawLine st).current.length = (k + lines.length) % 38
    ∧ (lines.foldl drawLine st).pages.length = (k + lines.length) / 38
    ∧ (∀ pg ∈ (lines.foldl drawLine st).pages, pg.length = 38)
    ∧ ∃ nd : Page, draws (lines.foldl drawLine st) = draws st ++ nd
        ∧ nd.map Prod.snd = lines.map (fun l => (⟨l.data.take 100⟩ : String))
        ∧ ∀ d ∈ nd, 60 ≤ d.1 ∧ d.1 ≤ 800 := by
  induction lines with
  | nil =>
    intro st k hy hcl hpl hpb
    exact ⟨by simpa using hy, by simpa using hcl, by simpa using hpl,
      by simpa using hpb, [], by simp, rfl, by simp⟩
  | cons line rest ih =>
    intro st k hy hcl hpl hpb
    have hmod : k % 38 < 38 := Nat.mod_lt _ (by omega)
    obtain ⟨hy1, hcl1, hpl1, hpb1, hdr1⟩ := drawLine_spec st k line hy hcl hpl hpb
    obtain ⟨hy2, hcl2, hpl2, hpb2, nd, hnd, hmap, hbd⟩ :=
      ih (drawLine st line) (k + 1) hy1 hcl1 hpl1 hpb1
    have harith : k + 1 + rest.length = k + (line :: rest).length := by
      simp [List.length_cons]
      omega
    rw [List.foldl_cons] at *
    refine ⟨by rw [← harith]; exact hy2, by rw [← harith]; exact hcl2,
      by rw [← harith]; exact hpl2, hpb2,
      (st.y, ⟨line.data.take 100⟩) :: nd, ?_, ?_, ?_⟩
    · rw [hnd, hdr1]
      simp [List.append_assoc]
    · simp [hmap]
    · intro d hd
      rcases List.mem_cons.1 hd with rfl | hd
      · exact ⟨by simp; omega, by simp; omega⟩
      · exact hbd d hd

/-- The loop invariant instantiated at the initial canvas state: after
rendering all lines of the content, the counts are determined by the line
count, and the recorded draws are exactly one per line, in order,
truncated, at cursor positions between 60 and 800. -/
theorem renderFold_spec (content : String) :
    (renderFold content).y = 800 - 20 * ((pySplitNewline content).length % 38)
    ∧ (renderFold content).current.length = (pySplitNewline content).length % 38
    ∧ (renderFold content).pages.length = (pySplitNewline content).length / 38
    ∧ (∀ pg ∈ (renderFold content).pages, pg.length = 38)
    ∧ (draws (renderFold content)).map Prod.snd
        = (pySplitNewline content).map (fun l => (⟨l.data.take 100⟩ : String))
    ∧ ∀ d ∈ draws (renderFold content), 60 ≤ d.1 ∧ d.1 ≤ 800 := by
  obtain ⟨h1, h2, h3, h4, nd, hnd, hmap, hbd⟩ :=
    foldl_drawLine_spec (pySplitNewline content) ⟨800, [], []⟩ 0 rfl rfl rfl (by simp)
  have hdr : draws (⟨800, [], []⟩ : RenderState) = [] := rfl
  rw [hdr, List.nil_append] at hnd
  unfold renderFold
  rw [hnd]
  simp only [Nat.zero_add] at h1 h2 h3
  exact ⟨h1, h2, h3, h4, hmap, hbd⟩

/-- C7: a content whose newline-separated line count exceeds the per-page
capacity of 38 renders to more than one page. -/
theorem renderer_paginates (content : String)
    (h : 38 < (pySplitNewline content).length) :
    1 < (renderPages content).length := by
  obtain ⟨-, h2, h3, -, -, -⟩ := renderFold_spec content
  cases hc : (renderFold content).current with
  | nil =>
    rw [hc] at h2
    simp only [List.length_nil] at h2
    have hl : (renderPages content).length = (renderFold content).pages.length := by
      unfold renderPages
      rw [hc]
      simp
    rw [hl, h3]
    omega
  | cons a t =>
    have hl : (renderPages content).length = (renderFold content).pages.length + 1 := by
      unfold renderPages
      rw [hc]
      simp
    rw [hl, h3]
    omega

/-- Witness for C7: forty lines produce at least two pages. -/
theorem renderer_paginates_witness :
    1 < (renderPages (String.join (List.replicate 39 "\nx"))).length :=
  renderer_paginates _ (by decide)

/-- C8: the rendered draws are exactly the input lines in order, each
truncated to its first 100 characters (dropped, never reflowed), so every
drawn string has length at most 100. -/
theorem renderer_truncates_lines (content : String) :
    (renderPages content).flatten.map Prod.snd
      = (pySplitNewline content).map (fun l => (⟨l.data.take 100⟩ : String))
    ∧ ∀ pg ∈ renderPages content, ∀ d ∈ pg, d.2.length ≤ 100 := by
  obtain ⟨-, -, -, -, hmap, -⟩ := renderFold_spec content
  have hflat : (renderPages content).flatten = draws (renderFold content) := by
    unfold renderPages draws
    cases hc : (renderFold content).current with
    | nil => simp [hc]
    | cons a t => simp [hc]
  refine ⟨by rw [hflat, hmap], ?_⟩
  intro pg hpg d hd
  have hdm : d.2 ∈ (renderPages content).flatten.map Prod.snd :=
    List.mem_map_of_mem _ (List.mem_flatten_of_mem hpg hd)
  rw [hflat, hmap] at hdm
  obtain ⟨l, -, hl⟩ := List.mem_map.1 hdm
  rw [← hl]
  simp

/-- Witness for C8: a one-line content is drawn verbatim and within the
length limit. -/
theorem renderer_truncates_lines_witness :
    (renderPages "short line").flatten.map Prod.snd
      = (pySplitNewline "short line").map (fun l => (⟨l.data.take 100⟩ : String))
    ∧ ("short line" : String).length ≤ 100 :=
  have h := renderer_truncates_lines "short line"
  ⟨h.1, h.2 [(800, "short line")] (by decide) (800, "short line") (by decide)⟩

/-- C10: no draw ever lands below the bottom threshold or above the top
margin — every `drawString` has vertical coordinate between 60 and 800 —
and no page receives more than 38 lines. -/
theorem renderer_margin_bounds (content : String) :
    ∀ pg ∈ renderPages content, pg.length ≤ 38 ∧ ∀ d ∈ pg, 60 ≤ d.1 ∧ d.1 ≤ 800 := by
  obtain ⟨-, h2, -, h4, -, hbd⟩ := renderFold_spec content
  intro pg hpg
  have hpg2 : pg ∈ (renderFold content).pages
      ++ (if (renderFold content).current.isEmpty then []
          else [(renderFold content).current]) := hpg
  have hcases : pg ∈ (renderFold content).pages ∨ pg = (renderFold content).current := by
    rcases List.mem_append.1 hpg2 with h | h
    · exact Or.inl h
    · right
      by_cases hce : (renderFold content).current.isEmpty
      · rw [if_pos hce] at h
        exact absurd h (List.not_mem_nil pg)
      · rw [if_neg hce] at h
        exact List.mem_singleton.1 h
  constructor
  · rcases hcases with h | h
    · rw [h4 pg h]
    · rw [h, h2]
      omega
  · intro d hd
    rcases hcases with h | h
    · exact hbd d (List.mem_append_left _ (List.mem_flatten_of_mem h hd))
    · rw [h] at hd
      exact hbd d (List.mem_append_right _ hd)

/-- Witness for C10: the two draws of a two-line content sit at 800 and
780, within bounds, on a single short page. -/
theorem renderer_margin_bounds_witness :
    ([(800, "a"), (780, "b")] : Page).length ≤ 38
    ∧ (60 ≤ (800 : Nat) ∧ (800 : Nat) ≤ 800) :=
  have h := renderer_margin_bounds "a\nb" [(800, "a"), (780, "b")] (by decide)
  ⟨h.1, h.2 (800, "a") (by decide)⟩

/-- Case analysis of the shared pipeline tail: the result is always one
of the two uniform shapes, and it is the success shape exactly when every
stage after extraction succeeded. -/
theorem tail_shape (text : String) (svc : String → Nat → AttemptResult) (fname : String) :
    ((∃ m, pipeline_tail text svc fname = mkFailure m)
      ∨ ∃ t u, pipeline_tail text svc fname = mkSuccess t u)
    ∧ ((pipeline_tail text svc fname).success = true ↔ tailOk text svc fname) := by
  unfold pipeline_tail optimize_resume tailOk
  cases ho : (call_ai_with_retry (resume_prompt text) svc).outcome with
  | error e => simp [ho, mkFailure]
  | ok reply =>
    cases hr : resolve_reply reply with
    | error e => simp [ho, hr, mkFailure]
    | ok optimized =>
      cases hc : create_pdf optimized fname with
      | error e => simp [ho, hr, hc, mkFailure]
      | ok res =>
        rcases res with ⟨fn, pgs⟩
        simp [ho, hr, hc, mkFailure, mkSuccess]

/-- C3: both handlers always return one of the two uniform shapes — the
embedded handlers are total functions, no exception crosses the pipeline
boundary — and the success shape is returned exactly when every stage
(extraction where applicable, completion, resolution, rendering)
succeeded. -/
theorem orchestrator_uniform_result (pages : List (Option String))
    (name email phone skills projects experience education : String)
    (svc : String → Nat → AttemptResult) (fname : String) :
    (((∃ m, optimize_handler pages svc fname = mkFailure m)
        ∨ ∃ t u, optimize_handler pages svc fname = mkSuccess t u)
      ∧ ((optimize_handler pages svc fname).success = true ↔ stagesOk pages svc fname))
    ∧ (((∃ m, optimize_structured_handler name email phone skills projects
            experience education svc fname = mkFailure m)
        ∨ ∃ t u, optimize_structured_handler name email phone skills projects
            experience education svc fname = mkSuccess t u)
      ∧ ((optimize_structured_handler name email phone skills projects
            experience education svc fname).success = true
          ↔ tailOk (structured_text name email phone skills projects experience education)
              svc fname)) := by
  constructor
  · unfold optimize_handler stagesOk
    cases he : extract_text pages with
    | error e => simp [he, mkFailure]
    | ok text =>
      have h := tail_shape text svc fname
      simp only [he]
      refine ⟨h.1, ?_⟩
      rw [h.2]
      simp
  · exact tail_shape _ svc fname

/-- Witness for C3: with a one-page document and a service that answers
with free text on the first attempt, both handlers succeed, so both
stage-success predicates hold. -/
theorem orchestrator_uniform_result_witness :
    stagesOk [some "resume body"] (fun _ _ => .content "an optimized resume") "f.pdf"
    ∧ tailOk (structured_text "Jo" "jo@x.io" "" "" "" "" "")
        (fun _ _ => .content "an optimized resume") "f.pdf" :=
  have h := orchestrator_uniform_result [some "resume body"] "Jo" "jo@x.io" "" "" "" "" ""
    (fun _ _ => .content "an optimized resume") "f.pdf"
  ⟨h.1.2.mp rfl, h.2.2.mp rfl⟩

/-- C9: the flattened structured-fields block contains the seven section
headers in their fixed order, whatever the field values are (blank fields
leave an empty section under their header). -/
theorem structured_headers_in_order (name email phone skills projects
    experience education : String) :
    containsInOrder (structured_text name email phone skills projects experience education)
      ["Name:", "Email:", "Phone:", "Skills:", "Projects:", "Experience:", "Education:"] := by
  have m1 : ("\nName: " : String) = ("\n" ++ "Name:") ++ " " := rfl
  have m2 : ("\nEmail: " : String) = ("\n" ++ "Email:") ++ " " := rfl
  have m3 : ("\nPhone: " : String) = ("\n" ++ "Phone:") ++ " " := rfl
  have m4 : ("\n\nSkills:\n" : String) = ("\n\n" ++ "Skills:") ++ "\n" := rfl
  have m5 : ("\n\nProjects:\n" : String) = ("\n\n" ++ "Projects:") ++ "\n" := rfl
  have m6 : ("\n\nExperience:\n" : String) = ("\n\n" ++ "Experience:") ++ "\n" := rfl
  have m7 : ("\n\nEducation:\n" : String) = ("\n\n" ++ "Education:") ++ "\n" := rfl
  refine ⟨"\n",
    " " ++ name ++ "\nEmail: " ++ email ++ "\nPhone: " ++ phone ++ "\n\nSkills:\n" ++ skills
      ++ "\n\nProjects:\n" ++ projects ++ "\n\nExperience:\n" ++ experience
      ++ "\n\nEducation:\n" ++ education ++ "\n", ?_,
    " " ++ name ++ "\n",
    " " ++ email ++ "\nPhone: " ++ phone ++ "\n\nSkills:\n" ++ skills
      ++ "\n\nProjects:\n" ++ projects ++ "\n\nExperience:\n" ++ experience
      ++ "\n\nEducation:\n" ++ education ++ "\n", ?_,
    " " ++ email ++ "\n",
    " " ++ phone ++ "\n\nSkills:\n" ++ skills ++ "\n\nProjects:\n" ++ projects
      ++ "\n\nExperience:\n" ++ experience ++ "\n\nEducation:\n" ++ education ++ "\n", ?_,
    " " ++ phone ++ "\n\n",
    "\n" ++ skills ++ "\n\nProjects:\n" ++ projects ++ "\n\nExperience:\n" ++ experience
      ++ "\n\nEducation:\n" ++ education ++ "\n", ?_,
    "\n" ++ skills ++ "\n\n",
    "\n" ++ projects ++ "\n\nExperience:\n" ++ experience
      ++ "\n\nEducation:\n" ++ education ++ "\n", ?_,
    "\n" ++ projects ++ "\n\n",
    "\n" ++ experience ++ "\n\nEducation:\n" ++ education ++ "\n", ?_,
    "\n" ++ experience ++ "\n\n",
    "\n" ++ education ++ "\n", ?_, trivial⟩
  · unfold structured_text
    rw [m1]
    simp only [String.append_assoc]
  · rw [m2]
    simp only [String.append_assoc]
  · rw [m3]
    simp only [String.append_assoc]
  · rw [m4]
    simp only [String.append_assoc]
  · rw [m5]
    simp only [String.append_assoc]
  · rw [m6]
    simp only [String.append_assoc]
  · rw [m7]
    simp only [String.append_assoc]

end ResumeBackend
